import Mathlib

/-!
Verification of the dynamic schema-introspection / generic CRUD / audit engine.

Shallow embedding of the core of `src/server.js` (the first, live copy of each
function and route in that file — the routes at lines 1439–1821 are the ones
Express serves, and the helper functions they call are the ones cited by the
specification): `buildSearchCondition` (lines 395–507), `getTableSchema`
(lines 253–350), `logAuditAction` (lines 674–722), and the generic
create / read / search / update / delete endpoints.

JavaScript values are modelled by `JsVal` (numbers as rationals — the decimal
literals this system manipulates are exact in `Rat`), rows by association
lists, and the database statements issued by an endpoint are tracked
explicitly so that "no query was issued" is a provable statement.
-/

/-- A JavaScript runtime value, restricted to the scalar shapes the engine
manipulates.  Numbers are modelled as rationals (`Rat`); the special float
`NaN` that `parseFloat` can produce is modelled by `nanNum` below at the SQL
parameter level. -/
inductive JsVal where
  | num (q : Rat)
  | str (s : String)
  | bool (b : Bool)
  | null
  | undefined
deriving DecidableEq, Repr

/-- JavaScript truthiness of a `JsVal` (`0`, `""`, `false`, `null` and
`undefined` are falsy). -/
def JsVal.truthy : JsVal → Bool
  | .num q => q != 0
  | .str s => s != ""
  | .bool b => b
  | .null => false
  | .undefined => false

/-- Tests whether `pat` starts `l` (over character lists). -/
def listStartsWith : List Char → List Char → Bool
  | _, [] => true
  | [], _ :: _ => false
  | a :: as, b :: bs => a == b && listStartsWith as bs

/-- Tests whether `pat` occurs as a contiguous substring of `l`. -/
def listHasSubstr (l pat : List Char) : Bool :=
  match l with
  | [] => listStartsWith [] pat
  | _ :: rest => listStartsWith l pat || listHasSubstr rest pat

/-- Models JavaScript `String.prototype.includes` (substring containment). -/
def strContains (s pat : String) : Bool :=
  listHasSubstr s.data pat.data

/-- Models JavaScript `String.prototype.toLowerCase` on the characters this
system encounters: ASCII letters plus the accented Latin capitals that occur
in the Spanish-language column values and the truthy vocabulary. -/
def jsCharToLower (c : Char) : Char :=
  if 'A' ≤ c && c ≤ 'Z' then Char.ofNat (c.toNat + 32)
  else if c = 'Á' then 'á'
  else if c = 'É' then 'é'
  else if c = 'Í' then 'í'
  else if c = 'Ó' then 'ó'
  else if c = 'Ú' then 'ú'
  else if c = 'Ñ' then 'ñ'
  else if c = 'Ü' then 'ü'
  else c

/-- Lower-casing of a whole string, JavaScript style (see `jsCharToLower`). -/
def jsToLower (s : String) : String :=
  ⟨s.data.map jsCharToLower⟩

/-- JavaScript whitespace trimming (ASCII space / tab / newline / CR are the
relevant cases). -/
def jsTrim (s : String) : String :=
  ⟨(s.data.dropWhile (fun c => c == ' ' || c == '\t' || c == '\n' || c == '\r')).reverse.dropWhile
      (fun c => c == ' ' || c == '\t' || c == '\n' || c == '\r') |>.reverse⟩

/-- Decimal digit test. -/
def isDig (c : Char) : Bool := '0' ≤ c && c ≤ '9'

/-- Numeric value of a list of decimal digits. -/
def natOfDigits (l : List Char) : Nat :=
  l.foldl (fun n c => 10 * n + (c.toNat - '0'.toNat)) 0

/-- Split a character list at the first occurrence of a character satisfying
`p`: returns the part before and (if a split character was found) the part
after it. -/
def splitAtFirst (p : Char → Bool) : List Char → List Char × Option (List Char)
  | [] => ([], none)
  | c :: rest =>
    if p c then ([], some rest)
    else
      let (pre, post) := splitAtFirst p rest
      (c :: pre, post)

/-- Parse an unsigned decimal mantissa `digits [. digits]` (at least one digit
overall) into a rational. -/
def parseMantissa (l : List Char) : Option Rat :=
  let (intPart, fracPart?) := splitAtFirst (· == '.') l
  match fracPart? with
  | none =>
    if intPart ≠ [] && intPart.all isDig then some (natOfDigits intPart) else none
  | some fracPart =>
    if (intPart ≠ [] || fracPart ≠ []) && intPart.all isDig && fracPart.all isDig then
      some ((natOfDigits intPart : Rat) + (natOfDigits fracPart : Rat) / (10 ^ fracPart.length : Nat))
    else none

/-- Parse an exponent part `[+|-] digits`. -/
def parseExponent (l : List Char) : Option Int :=
  match l with
  | '+' :: ds => if ds ≠ [] && ds.all isDig then some (natOfDigits ds) else none
  | '-' :: ds => if ds ≠ [] && ds.all isDig then some (-(natOfDigits ds : Int)) else none
  | ds => if ds ≠ [] && ds.all isDig then some (natOfDigits ds) else none

/-- Parse a signed decimal JavaScript number literal (sign, mantissa, optional
`e`/`E` exponent).  `none` models "not a finite decimal number" (`NaN`; the
`Infinity` literal and radix-prefixed literals are outside the decimal
fragment this system's search inputs use). -/
def parseJsDecimal (l : List Char) : Option Rat :=
  let (neg, body) : Bool × List Char :=
    match l with
    | '+' :: rest => (false, rest)
    | '-' :: rest => (true, rest)
    | rest => (false, rest)
  let (mant, exp?) := splitAtFirst (fun c => c == 'e' || c == 'E') body
  let signed : Rat → Rat := fun m => if neg then -m else m
  match exp? with
  | none => (parseMantissa mant).map signed
  | some expPart =>
    match parseMantissa mant, parseExponent expPart with
    | some m, some e => some (signed (m * (10 : Rat) ^ e))
    | _, _ => none

/-- Models JavaScript `isNaN(s)` for a string argument: `s` is coerced with
`Number(s)` (trimming whitespace; the empty string coerces to `0`, hence is
not `NaN`). -/
def jsIsNaN (s : String) : Bool :=
  let t := (jsTrim s).data
  if t = [] then false else (parseJsDecimal t).isNone

/-- Models `parseFloat(s)` on the branch where the engine invokes it (after
`!isNaN(s)`, so the trimmed string is a full decimal literal); `none` stands
for a non-finite parse result. -/
def jsParseFloat (s : String) : Option Rat :=
  let t := (jsTrim s).data
  if t = [] then none else parseJsDecimal t

/-- A value bound as a SQL statement parameter (`$1`).  `nanNum` is the
JavaScript float `NaN` (or an infinity), which has no rational value. -/
inductive SqlParam where
  | num (q : Rat)
  | str (s : String)
  | bool (b : Bool)
  | nanNum
deriving DecidableEq, Repr

/-- The `{condition, value}` object returned by `buildSearchCondition`. -/
structure SearchCondition where
  condition : String
  value : SqlParam
deriving DecidableEq, Repr

/-- Predicate template `"field" = $1` (exact equality; the identifier is
interpolated only between double quotes). -/
def eqTpl (fieldName : String) : String :=
  "\"" ++ fieldName ++ "\" = $1"

/-- Predicate template `"field" ILIKE $1` (case-insensitive substring, native
text types). -/
def ilikeTpl (fieldName : String) : String :=
  "\"" ++ fieldName ++ "\" ILIKE $1"

/-- Predicate template `CAST("field" AS TEXT) ILIKE $1` (cast-to-text
substring search). -/
def castIlikeTpl (fieldName : String) : String :=
  "CAST(\"" ++ fieldName ++ "\" AS TEXT) ILIKE $1"

/-- The fixed truthy vocabulary of the boolean branch
(`['true', '1', 'sí', 'si', 'yes', 't', 'verdadero']`). -/
def truthyVocab : List String :=
  ["true", "1", "sí", "si", "yes", "t", "verdadero"]

/-- The type-category dispatch of `buildSearchCondition`, applied to the
already lower-cased data type (`lowerDataType` in the source). -/
def buildSearchConditionLower (fieldName searchText lowerDataType : String) : SearchCondition :=
  -- Números (enteros, decimales, etc.)
  if strContains lowerDataType "int" || strContains lowerDataType "numeric" ||
      strContains lowerDataType "decimal" || strContains lowerDataType "float" ||
      strContains lowerDataType "double" || strContains lowerDataType "bigint" ||
      strContains lowerDataType "real" || strContains lowerDataType "money" then
    if jsIsNaN searchText then
      { condition := castIlikeTpl fieldName, value := .str ("%" ++ searchText ++ "%") }
    else
      { condition := eqTpl fieldName,
        value := match jsParseFloat searchText with
                 | some q => .num q
                 | none => .nanNum }
  -- Booleanos
  else if strContains lowerDataType "bool" then
    { condition := eqTpl fieldName,
      value := .bool (truthyVocab.contains (jsToLower searchText)) }
  -- Fechas y timestamps
  else if strContains lowerDataType "date" || strContains lowerDataType "timestamp" ||
      strContains lowerDataType "time" then
    { condition := castIlikeTpl fieldName, value := .str ("%" ++ searchText ++ "%") }
  -- Tipos USER-DEFINED (ENUMs, tipos personalizados)
  else if strContains lowerDataType "user-defined" || lowerDataType == "user_defined" ||
      strContains lowerDataType "enum" then
    { condition := castIlikeTpl fieldName, value := .str ("%" ++ searchText ++ "%") }
  -- Tipos de texto nativos
  else if strContains lowerDataType "text" || strContains lowerDataType "varchar" ||
      strContains lowerDataType "char" || strContains lowerDataType "character" ||
      strContains lowerDataType "string" || strContains lowerDataType "name" ||
      strContains lowerDataType "citext" then
    { condition := ilikeTpl fieldName, value := .str ("%" ++ searchText ++ "%") }
  -- Arrays
  else if strContains lowerDataType "array" || strContains lowerDataType "[]" then
    { condition := castIlikeTpl fieldName, value := .str ("%" ++ searchText ++ "%") }
  -- UUID
  else if strContains lowerDataType "uuid" then
    if searchText.length == 36 && strContains searchText "-" then
      { condition := eqTpl fieldName, value := .str searchText }
    else
      { condition := castIlikeTpl fieldName, value := .str ("%" ++ searchText ++ "%") }
  -- JSON/JSONB
  else if strContains lowerDataType "json" then
    { condition := castIlikeTpl fieldName, value := .str ("%" ++ searchText ++ "%") }
  -- Cualquier otro tipo desconocido - usar conversión segura
  else
    { condition := castIlikeTpl fieldName, value := .str ("%" ++ searchText ++ "%") }

/-- Shallow embedding of `buildSearchCondition(fieldName, searchText,
dataType)` (src/server.js lines 395–507): lower-cases the declared type once,
then dispatches by type category, producing a parameterized predicate
template and the value bound to `$1`. -/
def buildSearchCondition (fieldName searchText dataType : String) : SearchCondition :=
  buildSearchConditionLower fieldName searchText (jsToLower dataType)

/-! ## Metadata Catalog Reader (`getTableSchema`, src/server.js 253–350) -/

/-- One row of the `information_schema.columns` introspection query (the
fields the resolution logic reads). -/
structure ColumnInfo where
  column_name : String
  data_type : String
deriving DecidableEq, Repr

/-- The schema object returned by `getTableSchema` (foreign keys are not
touched by any claim and are omitted). -/
structure TableSchema where
  columns : List ColumnInfo
  primaryKey : String
deriving DecidableEq, Repr

/-- The fallback test at lines 316–319: the column's lower-cased name is
literally `id` or contains `id` as a substring. -/
def hasIdName (col : ColumnInfo) : Bool :=
  jsToLower col.column_name == "id" || strContains (jsToLower col.column_name) "id"

/-- Fallback primary-key choice (lines 314–329): the first column whose name
passes `hasIdName`, else the first declared column. -/
def fallbackPrimaryKey (c0 : ColumnInfo) (rest : List ColumnInfo) : String :=
  match (c0 :: rest).find? hasIdName with
  | some col => col.column_name
  | none => c0.column_name

/-- Shallow embedding of `getTableSchema` (src/server.js 253–350).
`columnsRows` is the answer of the ordered `information_schema.columns`
query; `pkRows` the answer of the `pg_index` primary-key query (empty also
when that query threw and was caught at line 309).  Zero columns raise the
error of line 271.  The JavaScript falsiness test `if (!primaryKey)` at line
314 treats an empty-string name like an absent one. -/
def getTableSchemaModel (columnsRows : List ColumnInfo) (pkRows : List String) :
    Except String TableSchema :=
  match columnsRows with
  | [] => .error "No se encontraron columnas para la tabla"
  | c0 :: rest =>
    let primaryKey :=
      match pkRows.head? with
      | some p => if p == "" then fallbackPrimaryKey c0 rest else p
      | none => fallbackPrimaryKey c0 rest
    .ok { columns := c0 :: rest, primaryKey := primaryKey }

/-! ## Rows, records and the store's view of a table

A row is an association list from column names to scalar values; a table is a
list of rows in the store's (unspecified but stable within one request)
order.  The SQL statements an endpoint issues are modelled by their effect on
this list, and `WHERE "field" = $1` by `sqlEq` (SQL `NULL` compares unequal
to everything). -/

/-- A database row / JavaScript record object. -/
abbrev Row := List (String × JsVal)

/-- JavaScript property access `record[key]` (absent keys give `undefined`). -/
def rowGet (r : Row) (k : String) : JsVal :=
  ((r.find? (fun kv => kv.1 == k)).map (fun kv => kv.2)).getD .undefined

/-- Set one column of a row (SQL `SET "k" = v`): replaces the value when the
column is present, appends it otherwise. -/
def rowSet (r : Row) (k : String) (v : JsVal) : Row :=
  if r.any (fun kv => kv.1 == k) then
    r.map (fun kv => if kv.1 == k then (k, v) else kv)
  else r ++ [(k, v)]

/-- Apply every assignment of an update payload to a row (the `SET` clause of
`UPDATE`). -/
def applyUpdate (r : Row) (upd : Row) : Row :=
  upd.foldl (fun acc kv => rowSet acc kv.1 kv.2) r

/-- Drop the keys in `ks` from a record (`delete obj[k]`). -/
def removeKeys (r : Row) (ks : List String) : Row :=
  r.filter (fun kv => !(ks.contains kv.1))

/-- SQL equality under bound parameters: `NULL` (and a missing/`undefined`
value, which the driver sends as `NULL`) matches nothing. -/
def sqlEq (a b : JsVal) : Bool :=
  if a == JsVal.null || b == JsVal.null || a == JsVal.undefined || b == JsVal.undefined then false
  else a == b

/-- Evaluation of `WHERE "field" = $1` at one row. -/
def matchesCriterion (field : String) (v : JsVal) (r : Row) : Bool :=
  sqlEq (rowGet r field) v

/-! ## Audit Recorder (`logAuditAction`, src/server.js 674–722) -/

/-- The authenticated principal (`req.user`). -/
structure Principal where
  email : String
  id : JsVal
  name : String
deriving DecidableEq, Repr

/-- The argument object passed to `logAuditAction` by the mutating endpoints
(request-metadata fields `ipAddress`/`userAgent`/`sessionInfo` carry no
claim-relevant structure and are omitted). -/
structure ActionData where
  userEmail : String
  userId : JsVal
  userName : String
  action : String
  tableName : String
  recordId : JsVal
  oldValues : Option Row
  newValues : Option Row
deriving DecidableEq, Repr

/-- Render one scalar as JSON source text (string escaping and non-integer
number formatting are beyond what any claim touches). -/
def jsonOfVal : JsVal → String
  | .str s => "\"" ++ s ++ "\""
  | .num q => if q.den = 1 then toString q.num else toString q
  | .bool b => if b then "true" else "false"
  | .null => "null"
  | .undefined => "null"

/-- Models `JSON.stringify` on a record object: each present key is emitted
verbatim (`JSON.stringify` performs no key transformation; properties whose
value is `undefined` are omitted, as in JavaScript). -/
def jsonStringify (r : Row) : String :=
  "\x7b" ++
    String.intercalate ","
      ((r.filter (fun kv => kv.2 != JsVal.undefined)).map
        (fun kv => "\"" ++ kv.1 ++ "\":" ++ jsonOfVal kv.2)) ++
    "\x7d"

/-- Models `recordId?.toString() || null` (line 705): `null`/`undefined` short to
`null`; an empty string is falsy and also becomes `null`. -/
def jsToStringOrNull : JsVal → Option String
  | .null => none
  | .undefined => none
  | .str s => if s == "" then none else some s
  | .num q => some (if q.den = 1 then toString q.num else toString q)
  | .bool b => some (if b then "true" else "false")

/-- Upper-casing (ASCII suffices for the actions `CREATE`/`UPDATE`/`DELETE`
passed by the endpoints). -/
def jsToUpper (s : String) : String :=
  ⟨s.data.map (fun c => if 'a' ≤ c && c ≤ 'z' then Char.ofNat (c.toNat - 32) else c)⟩

/-- The tuple of values bound into the `INSERT INTO audit_log` statement
(lines 690–711): snapshots serialized with `JSON.stringify`, with no
transformation of their field names. -/
structure AuditInsertValues where
  user_email : String
  user_id : JsVal
  user_name : String
  action : String
  table_name : String
  record_id : Option String
  old_values : Option String
  new_values : Option String
deriving DecidableEq, Repr

/-- The mapping from `actionData` to the bound insert values. -/
def auditInsertValues (a : ActionData) : AuditInsertValues :=
  { user_email := a.userEmail
    user_id := a.userId
    user_name := a.userName
    action := jsToUpper a.action
    table_name := a.tableName
    record_id := jsToStringOrNull a.recordId
    old_values := a.oldValues.map jsonStringify
    new_values := a.newValues.map jsonStringify }

/-- The row the `audit_log` insert returns (`RETURNING id, timestamp`). -/
structure PersistedAudit where
  id : Nat
  timestamp : String
deriving DecidableEq, Repr

/-- Shallow embedding of `logAuditAction` (src/server.js 674–722).  `store`
is the backing store's response to the attempted `audit_log` insert.  The
whole body sits in a `try`/`catch` whose handler only logs (line 718–721):
a store failure yields `none` (JavaScript `undefined`), it is never
rethrown. -/
def logAuditAction (a : ActionData)
    (store : AuditInsertValues → Except String PersistedAudit) : Option PersistedAudit :=
  match store (auditInsertValues a) with
  | .ok r => some r
  | .error _ => none

/-- The audit write as a step of an endpoint's `try` block: because
`logAuditAction` catches internally, this step never produces the `.error`
that would send the endpoint into its own `catch`. -/
def auditStep (a : ActionData)
    (store : AuditInsertValues → Except String PersistedAudit) :
    Except String (Option PersistedAudit) :=
  .ok (logAuditAction a store)

/-- Fold the Spanish diacritics to plain ASCII (used only to *state* that
two field names are accent-variants of each other). -/
def asciiFoldChar (c : Char) : Char :=
  if c = 'á' then 'a' else if c = 'é' then 'e' else if c = 'í' then 'i'
  else if c = 'ó' then 'o' else if c = 'ú' then 'u' else if c = 'ñ' then 'n'
  else if c = 'ü' then 'u' else if c = 'Á' then 'A' else if c = 'É' then 'E'
  else if c = 'Í' then 'I' else if c = 'Ó' then 'O' else if c = 'Ú' then 'U'
  else if c = 'Ñ' then 'N' else if c = 'Ü' then 'U' else c

/-- ASCII folding of a whole field name. -/
def asciiFold (s : String) : String :=
  ⟨s.data.map asciiFoldChar⟩

/-! ## Generic CRUD Executor: the mutating endpoints
(`POST /create` 1439–1517, `PUT /update` 1661–1747, `DELETE /delete`
1750–1821 of src/server.js) -/

/-- Outcome of one mutating request: HTTP status, `success` flag, response
message, the record in the response body, the table contents afterwards, the
`logAuditAction` invocations made, and how many SQL statements were issued
against the data table. -/
structure MutationResult where
  status : Nat
  success : Bool
  message : String
  record : Option Row
  table : List Row
  audit : List ActionData
  queries : Nat
deriving Repr

/-- The `searchCriteria` object of the update/delete request bodies. -/
structure Criteria where
  field : String
  value : JsVal
deriving DecidableEq, Repr

/-- Strip `undefined`, `null` and `''`-valued fields from a create payload
(lines 1452–1457). -/
def cleanCreateData (data : Row) : Row :=
  data.filter (fun kv =>
    !(kv.2 == JsVal.undefined || kv.2 == JsVal.null || kv.2 == JsVal.str ""))

/-- Endpoint `POST /api/tables/:tableName/create` (lines 1439–1517): clean the
payload, reject an empty remainder, insert (`RETURNING *` gives back the
inserted row), audit with `oldValues: null`, respond with the row. -/
def createEndpoint (p : Principal) (tableName pk : String) (table : List Row) (data : Row)
    (store : AuditInsertValues → Except String PersistedAudit) : MutationResult :=
  if (cleanCreateData data).isEmpty then
    { status := 400, success := false, message := "No hay datos válidos para insertar",
      record := none, table := table, audit := [], queries := 0 }
  else
    let newRecord := cleanCreateData data
    let table' := table ++ [newRecord]
    let a : ActionData :=
      { userEmail := p.email, userId := p.id, userName := p.name,
        action := "CREATE", tableName := tableName, recordId := rowGet newRecord pk,
        oldValues := none, newValues := some newRecord }
    match auditStep a store with
    | .error msg =>
      { status := 500, success := false, message := msg,
        record := none, table := table', audit := [a], queries := 1 }
    | .ok _ =>
      { status := 200, success := true, message := "Registro creado exitosamente",
        record := some newRecord, table := table', audit := [a], queries := 1 }

/-- Endpoint `PUT /api/tables/:tableName/update` (lines 1661–1747): validate the
criterion (`value === undefined` is the only rejected value), read the
pre-image (`rows[0]` of the unordered, unlimited `SELECT`), 404 when none,
strip `_rowIndex`/`_primaryKey` from the payload, apply the `UPDATE` to
every matching row, audit once with both snapshots, respond with `rows[0]`
of `RETURNING *`.  An empty `SET` clause is a SQL syntax error surfaced by
the endpoint's `catch`. -/
def updateEndpointChecked (p : Principal) (tableName pk : String) (table : List Row)
    (crit : Criteria) (updateData : Row)
    (store : AuditInsertValues → Except String PersistedAudit) : MutationResult :=
  if crit.field == "" || crit.value == JsVal.undefined then
    { status := 400, success := false, message := "Se requiere criterio de búsqueda válido",
      record := none, table := table, audit := [], queries := 0 }
  else
    match (table.filter (matchesCriterion crit.field crit.value)).head? with
    | none =>
      { status := 404, success := false, message := "Registro no encontrado",
        record := none, table := table, audit := [], queries := 1 }
    | some oldRecord =>
      if (removeKeys updateData ["_rowIndex", "_primaryKey"]).isEmpty then
        { status := 500, success := false, message := "error de sintaxis",
          record := none, table := table, audit := [], queries := 1 }
      else
        let cleanUpdateData := removeKeys updateData ["_rowIndex", "_primaryKey"]
        let table' := table.map (fun r =>
          if matchesCriterion crit.field crit.value r then applyUpdate r cleanUpdateData else r)
        let updatedRecord := applyUpdate oldRecord cleanUpdateData
        let a : ActionData :=
          { userEmail := p.email, userId := p.id, userName := p.name,
            action := "UPDATE", tableName := tableName,
            recordId := rowGet updatedRecord pk,
            oldValues := some oldRecord, newValues := some updatedRecord }
        match auditStep a store with
        | .error msg =>
          { status := 500, success := false, message := msg,
            record := none, table := table', audit := [a], queries := 2 }
        | .ok _ =>
          { status := 200, success := true, message := "Registro actualizado correctamente",
            record := some updatedRecord, table := table', audit := [a], queries := 2 }

/-- The route handler, including the `!searchCriteria` presence check. -/
def updateEndpoint (p : Principal) (tableName pk : String) (table : List Row)
    (crit? : Option Criteria) (updateData : Row)
    (store : AuditInsertValues → Except String PersistedAudit) : MutationResult :=
  match crit? with
  | none =>
    { status := 400, success := false, message := "Se requiere criterio de búsqueda válido",
      record := none, table := table, audit := [], queries := 0 }
  | some crit => updateEndpointChecked p tableName pk table crit updateData store

/-- Endpoint `DELETE /api/tables/:tableName/delete` (lines 1750–1821): validate the
criterion (any *falsy* value is rejected), read the pre-image (`rows[0]`),
404 when none, delete every matching row, audit once with
`newValues: null`, respond with the deleted record. -/
def deleteEndpointChecked (p : Principal) (tableName pk : String) (table : List Row)
    (crit : Criteria)
    (store : AuditInsertValues → Except String PersistedAudit) : MutationResult :=
  if crit.field == "" || !(JsVal.truthy crit.value) then
    { status := 400, success := false,
      message := "Se requiere criterio de búsqueda válido para eliminar",
      record := none, table := table, audit := [], queries := 0 }
  else
    match (table.filter (matchesCriterion crit.field crit.value)).head? with
    | none =>
      { status := 404, success := false, message := "No se encontró un registro",
        record := none, table := table, audit := [], queries := 1 }
    | some recordToDelete =>
      let table' := table.filter (fun r => !(matchesCriterion crit.field crit.value r))
      let a : ActionData :=
        { userEmail := p.email, userId := p.id, userName := p.name,
          action := "DELETE", tableName := tableName,
          recordId := rowGet recordToDelete pk,
          oldValues := some recordToDelete, newValues := none }
      match auditStep a store with
      | .error msg =>
        { status := 500, success := false, message := msg,
          record := none, table := table', audit := [a], queries := 2 }
      | .ok _ =>
        { status := 200, success := true, message := "Registro eliminado exitosamente",
          record := some recordToDelete, table := table', audit := [a], queries := 2 }

/-- The route handler, including the `!searchCriteria` presence check. -/
def deleteEndpoint (p : Principal) (tableName pk : String) (table : List Row)
    (crit? : Option Criteria)
    (store : AuditInsertValues → Except String PersistedAudit) : MutationResult :=
  match crit? with
  | none =>
    { status := 400, success := false,
      message := "Se requiere criterio de búsqueda válido para eliminar",
      record := none, table := table, audit := [], queries := 0 }
  | some crit => deleteEndpointChecked p tableName pk table crit store

/-- The single audit entry of a concrete create request. -/
def c3entry : ActionData :=
  ((createEndpoint ⟨"a@rn.gob", .num 1, "Ana"⟩ "socios" "id" []
      [("id", .num 7), ("n", .str "x")] (fun _ => .ok ⟨1, "t"⟩)).audit).head?.getD
    ⟨"", .null, "", "", "", .null, none, none⟩

/-! ## C7: field-name handling in audit snapshots -/

/-- A pre-image row carrying an accented field name and its plain-ASCII
variant as two different keys. -/
def accentRow : Row := [("Razón", .str "Social"), ("Razon", .str "Comercial")]

/-! ## Search endpoint (`GET /api/tables/:tableName/search`, src/server.js
1569–1630) and the absence of any schema cache (C6, C8)

`getTableSchema` is `await`ed inside every request handler (line 1575 for
search); no module state memoizes its result, so the catalog introspection
runs again on every request.  The model threads an explicit log counting
catalog introspections and queries issued against the data table. -/

/-- Running totals of statements issued to the backing store. -/
structure QueryLog where
  introspections : Nat
  dataQueries : Nat
deriving DecidableEq, Repr

/-- The transport-visible part of the search response. -/
structure SearchResponse where
  status : Nat
  success : Bool
deriving DecidableEq, Repr

/-- Shallow embedding of the search handler.  `tableExists` is the answer of
`validateTableAccess`; `columnsRows`/`pkRows` are the catalog's answers used
by `getTableSchema` (whose invocation — one round of catalog introspection —
is counted); `searchText`/`searchField` are the query parameters, `""`
standing for an absent (hence falsy) parameter.  The rows a data query
returns are produced by the store and are not modelled; the log records that
the query was issued. -/
def searchEndpoint (log : QueryLog) (tableExists : Bool) (columnsRows : List ColumnInfo)
    (pkRows : List String) (searchText searchField : String) : QueryLog × SearchResponse :=
  if !tableExists then
    (log, { status := 500, success := false })
  else
    let log1 : QueryLog := { log with introspections := log.introspections + 1 }
    match getTableSchemaModel columnsRows pkRows with
    | .error _ => (log1, { status := 500, success := false })
    | .ok schema =>
      if searchText != "" && searchField != "" then
        match schema.columns.find? (fun col => col.column_name == searchField) with
        | none => (log1, { status := 400, success := false })
        | some fieldInfo =>
          let _cond := buildSearchCondition searchField searchText fieldInfo.data_type
          ({ log1 with dataQueries := log1.dataQueries + 1 }, { status := 200, success := true })
      else
        ({ log1 with dataQueries := log1.dataQueries + 1 }, { status := 200, success := true })

/-- Two consecutive search requests for the same table, starting from a
fresh process. -/
def searchTwiceLog : QueryLog :=
  (searchEndpoint
    (searchEndpoint ⟨0, 0⟩ true [⟨"id", "integer"⟩] ["id"] "" "").1
    true [⟨"id", "integer"⟩] ["id"] "" "").1

/-! ## Theorems: settling the claims -/

example : buildSearchCondition "Legajo" "42" "integer" =
    { condition := "\"Legajo\" = $1", value := .num 42 } := by decide

example : buildSearchCondition "Legajo" "abc" "integer" =
    { condition := "CAST(\"Legajo\" AS TEXT) ILIKE $1", value := .str "%abc%" } := by decide

example : buildSearchCondition "Activa" "Sí" "boolean" =
    { condition := "\"Activa\" = $1", value := .bool true } := by decide

example : buildSearchCondition "Activa" "no" "boolean" =
    { condition := "\"Activa\" = $1", value := .bool false } := by decide

/-- C1.  For every column name, declared type and raw search text, the
predicate template returned by `buildSearchCondition` is one of exactly three
shapes — `"col" = $1`, `"col" ILIKE $1`, `CAST("col" AS TEXT) ILIKE $1` — in
each of which the column identifier is interpolated only between double
quotes; the raw search text does not occur in the template (each shape is a
function of the column name alone), it is carried only in the separately
returned bound value. -/
theorem buildSearchCondition_template_shapes (fieldName searchText dataType : String) :
    (buildSearchCondition fieldName searchText dataType).condition = eqTpl fieldName ∨
    (buildSearchCondition fieldName searchText dataType).condition = ilikeTpl fieldName ∨
    (buildSearchCondition fieldName searchText dataType).condition = castIlikeTpl fieldName := by
  unfold buildSearchCondition buildSearchConditionLower
  repeat' split
  all_goals first
    | (left; rfl)
    | (right; left; rfl)
    | (right; right; rfl)

/-- C2.  On a numeric column, `"42"` yields exact equality with the bound
number `42` and `"abc"` yields the cast-to-text case-insensitive substring
condition with bound value `"%abc%"`; on a boolean column, `"Sí"` yields
equality against `true`, and any raw text whose lower-cased form is outside
the fixed truthy vocabulary yields equality against `false`. -/
theorem buildSearchCondition_type_semantics (fieldName t : String)
    (h : truthyVocab.contains (jsToLower t) = false) :
    buildSearchCondition fieldName "42" "integer" =
      { condition := eqTpl fieldName, value := .num 42 } ∧
    buildSearchCondition fieldName "abc" "integer" =
      { condition := castIlikeTpl fieldName, value := .str "%abc%" } ∧
    buildSearchCondition fieldName "Sí" "boolean" =
      { condition := eqTpl fieldName, value := .bool true } ∧
    buildSearchCondition fieldName t "boolean" =
      { condition := eqTpl fieldName, value := .bool false } := by
  refine ⟨rfl, rfl, rfl, ?_⟩
  have hb : buildSearchCondition fieldName t "boolean" =
      { condition := eqTpl fieldName,
        value := .bool (truthyVocab.contains (jsToLower t)) } := rfl
  rw [hb, h]

/-- Witness for C2 at a concrete field name and a concrete non-truthy raw
text. -/
theorem buildSearchCondition_type_semantics_witness :
    truthyVocab.contains (jsToLower "no") = false ∧
    buildSearchCondition "Activa" "no" "boolean" =
      { condition := eqTpl "Activa", value := .bool false } :=
  ⟨by decide, (buildSearchCondition_type_semantics "Activa" "no" (by decide)).2.2.2⟩

/-- C5.  For every table with at least one column, `getTableSchema`
succeeds and resolves the primary key by exactly this precedence: (1) the
column flagged primary in the store's index metadata, when the `pg_index`
query returned one; (2) otherwise the first column whose lower-cased name is
or contains `id`; (3) otherwise the first declared column. -/
theorem getTableSchema_primaryKey_precedence
    (c0 : ColumnInfo) (rest : List ColumnInfo) (pkRows : List String) :
    ∃ s : TableSchema, getTableSchemaModel (c0 :: rest) pkRows = .ok s ∧
      (∀ p, pkRows.head? = some p → p ≠ "" → s.primaryKey = p) ∧
      (pkRows.head? = none →
        ((∃ col ∈ c0 :: rest, hasIdName col) →
          ∃ col, (c0 :: rest).find? hasIdName = some col ∧ hasIdName col ∧
            s.primaryKey = col.column_name) ∧
        ((¬ ∃ col ∈ c0 :: rest, hasIdName col) → s.primaryKey = c0.column_name)) := by
  refine ⟨_, rfl, ?_, ?_⟩
  · intro p hp hne
    simp only [getTableSchemaModel, hp]
    rw [if_neg (by simpa using hne)]
  · intro hnone
    simp only [getTableSchemaModel, hnone]
    constructor
    · intro hex
      have hsome : ((c0 :: rest).find? hasIdName).isSome := by
        rw [List.find?_isSome]
        obtain ⟨col, hmem, hid⟩ := hex
        exact ⟨col, hmem, hid⟩
      obtain ⟨col, hcol⟩ := Option.isSome_iff_exists.mp hsome
      exact ⟨col, hcol, List.find?_some hcol, by simp [fallbackPrimaryKey, hcol]⟩
    · intro hnex
      have hfind : (c0 :: rest).find? hasIdName = none :=
        List.find?_eq_none.mpr (fun x hx hid => hnex ⟨x, hx, hid⟩)
      simp [fallbackPrimaryKey, hfind]

/-- Witness for C5: a two-column table without catalog primary-key metadata
resolves to its `id`-named column. -/
theorem getTableSchema_primaryKey_precedence_witness :
    ∃ s : TableSchema,
      getTableSchemaModel [⟨"Nombre", "text"⟩, ⟨"user_id", "integer"⟩] [] = .ok s ∧
      s.primaryKey = "user_id" := by
  obtain ⟨s, hs, -, hfall⟩ :=
    getTableSchema_primaryKey_precedence ⟨"Nombre", "text"⟩ [⟨"user_id", "integer"⟩] []
  obtain ⟨col, hcol, -, hpk⟩ :=
    (hfall rfl).1 ⟨⟨"user_id", "integer"⟩, by simp, by decide⟩
  have hfind : (([⟨"Nombre", "text"⟩, ⟨"user_id", "integer"⟩] : List ColumnInfo).find?
      hasIdName) = some ⟨"user_id", "integer"⟩ := by decide
  rw [hfind] at hcol
  cases hcol
  exact ⟨s, hs, hpk⟩

/-- C3.  Every audit entry emitted by the mutating endpoints satisfies
the snapshot-nullability invariant: a CREATE entry has `oldValues = null`
and `newValues` the inserted row; an UPDATE entry has both snapshots
present, the pre-image being the first row the unordered pre-image query
returned and the post-image that row after the update; a DELETE entry has
`newValues = null` and `oldValues` the pre-image row. -/
theorem audit_snapshot_nullability
    (p : Principal) (tableName pk : String) (table : List Row) (data : Row)
    (crit crit' : Criteria) (upd : Row)
    (store : AuditInsertValues → Except String PersistedAudit) :
    (∀ e ∈ (createEndpoint p tableName pk table data store).audit,
        e.action = "CREATE" ∧ e.oldValues = none ∧
        e.newValues = some (cleanCreateData data)) ∧
    (∀ e ∈ (updateEndpoint p tableName pk table (some crit) upd store).audit,
        e.action = "UPDATE" ∧
        ∃ pre, (table.filter (matchesCriterion crit.field crit.value)).head? = some pre ∧
          e.oldValues = some pre ∧
          e.newValues = some (applyUpdate pre (removeKeys upd ["_rowIndex", "_primaryKey"]))) ∧
    (∀ e ∈ (deleteEndpoint p tableName pk table (some crit') store).audit,
        e.action = "DELETE" ∧ e.newValues = none ∧
        ∃ pre, (table.filter (matchesCriterion crit'.field crit'.value)).head? = some pre ∧
          e.oldValues = some pre) := by
  refine ⟨?_, ?_, ?_⟩ <;> intro e he
  · unfold createEndpoint at he
    split at he
    · exact absurd he (by simp)
    · simp only [auditStep, MutationResult.mk.injEq, List.mem_singleton] at he
      subst he
      exact ⟨rfl, rfl, rfl⟩
  · rw [show updateEndpoint p tableName pk table (some crit) upd store =
        updateEndpointChecked p tableName pk table crit upd store from rfl] at he
    unfold updateEndpointChecked at he
    split at he
    · exact absurd he (by simp)
    · split at he
      · exact absurd he (by simp)
      · rename_i oldRecord heq
        split at he
        · exact absurd he (by simp)
        · simp only [auditStep, List.mem_singleton] at he
          subst he
          exact ⟨rfl, oldRecord, heq, rfl, rfl⟩
  · rw [show deleteEndpoint p tableName pk table (some crit') store =
        deleteEndpointChecked p tableName pk table crit' store from rfl] at he
    unfold deleteEndpointChecked at he
    split at he
    · exact absurd he (by simp)
    · split at he
      · exact absurd he (by simp)
      · rename_i recordToDelete heq
        simp only [auditStep, List.mem_singleton] at he
        subst he
        exact ⟨rfl, rfl, recordToDelete, heq, rfl⟩

/-- Witness for C3: a concrete create emits one audit entry, with
`oldValues = null` and `newValues` the inserted row. -/
theorem audit_snapshot_nullability_witness :
    c3entry.action = "CREATE" ∧ c3entry.oldValues = none ∧
      c3entry.newValues = some (cleanCreateData [("id", JsVal.num 7), ("n", JsVal.str "x")]) :=
  (audit_snapshot_nullability ⟨"a@rn.gob", .num 1, "Ana"⟩ "socios" "id" []
      [("id", .num 7), ("n", .str "x")] ⟨"id", .num 7⟩ ⟨"id", .num 7⟩ []
      (fun _ => .ok ⟨1, "t"⟩)).1 c3entry (by decide)

/-- C4.  An audit-write failure is swallowed inside `logAuditAction`
(its `catch` only logs and returns `undefined`), so the audit step of an
endpoint never raises, and the outcome of every mutating endpoint — status,
flag, response record, resulting table — is identical whatever the audit
store does, in particular when it fails. -/
theorem audit_failure_never_surfaces
    (p : Principal) (tableName pk : String) (table : List Row) (data upd : Row)
    (crit? : Option Criteria) (a : ActionData) (msg : String)
    (store store' : AuditInsertValues → Except String PersistedAudit) :
    logAuditAction a (fun _ => .error msg) = none ∧
    auditStep a store = .ok (logAuditAction a store) ∧
    createEndpoint p tableName pk table data store =
      createEndpoint p tableName pk table data store' ∧
    updateEndpoint p tableName pk table crit? upd store =
      updateEndpoint p tableName pk table crit? upd store' ∧
    deleteEndpoint p tableName pk table crit? store =
      deleteEndpoint p tableName pk table crit? store' :=
  ⟨rfl, rfl, rfl, rfl, rfl⟩

/-- C9.  When the `(field, value)` criterion matches `n ≥ 1` rows, update
and delete mutate *every* matching row (their SQL carries no row limit),
while the response record, the audited `recordId` and the audit pre-image
all come from the first row of the unordered pre-image query only, and
exactly one audit entry is emitted. -/
theorem update_delete_bulk_semantics
    (p : Principal) (tableName pk : String) (table : List Row) (crit : Criteria) (upd : Row)
    (store : AuditInsertValues → Except String PersistedAudit)
    (hf : crit.field ≠ "") (hv : JsVal.truthy crit.value = true)
    (hmatch : table.filter (matchesCriterion crit.field crit.value) ≠ [])
    (hupd : removeKeys upd ["_rowIndex", "_primaryKey"] ≠ []) :
    ((updateEndpoint p tableName pk table (some crit) upd store).success = true ∧
     (updateEndpoint p tableName pk table (some crit) upd store).table =
       table.map (fun r => if matchesCriterion crit.field crit.value r then
         applyUpdate r (removeKeys upd ["_rowIndex", "_primaryKey"]) else r) ∧
     (updateEndpoint p tableName pk table (some crit) upd store).audit.length = 1 ∧
     (∀ e ∈ (updateEndpoint p tableName pk table (some crit) upd store).audit,
        e.oldValues = (table.filter (matchesCriterion crit.field crit.value)).head? ∧
        e.newValues = (table.filter (matchesCriterion crit.field crit.value)).head?.map
          (fun r0 => applyUpdate r0 (removeKeys upd ["_rowIndex", "_primaryKey"])) ∧
        (updateEndpoint p tableName pk table (some crit) upd store).record = e.newValues ∧
        some e.recordId = (table.filter (matchesCriterion crit.field crit.value)).head?.map
          (fun r0 => rowGet (applyUpdate r0 (removeKeys upd ["_rowIndex", "_primaryKey"])) pk))) ∧
    ((deleteEndpoint p tableName pk table (some crit) store).success = true ∧
     (deleteEndpoint p tableName pk table (some crit) store).table =
       table.filter (fun r => !(matchesCriterion crit.field crit.value r)) ∧
     (deleteEndpoint p tableName pk table (some crit) store).audit.length = 1 ∧
     (∀ e ∈ (deleteEndpoint p tableName pk table (some crit) store).audit,
        e.oldValues = (table.filter (matchesCriterion crit.field crit.value)).head? ∧
        (deleteEndpoint p tableName pk table (some crit) store).record = e.oldValues ∧
        some e.recordId = (table.filter (matchesCriterion crit.field crit.value)).head?.map
          (fun r0 => rowGet r0 pk))) := by
  have hnu : crit.value ≠ JsVal.undefined := by
    intro h
    rw [h] at hv
    exact absurd hv (by decide)
  cases hft : table.filter (matchesCriterion crit.field crit.value) with
  | nil => exact absurd hft hmatch
  | cons m0 tl =>
    have hne : (removeKeys upd ["_rowIndex", "_primaryKey"]).isEmpty = false := by
      simpa [List.isEmpty_iff] using hupd
    have hU : updateEndpoint p tableName pk table (some crit) upd store =
        { status := 200, success := true, message := "Registro actualizado correctamente",
          record := some (applyUpdate m0 (removeKeys upd ["_rowIndex", "_primaryKey"])),
          table := table.map (fun r => if matchesCriterion crit.field crit.value r then
            applyUpdate r (removeKeys upd ["_rowIndex", "_primaryKey"]) else r),
          audit := [⟨p.email, p.id, p.name, "UPDATE", tableName,
            rowGet (applyUpdate m0 (removeKeys upd ["_rowIndex", "_primaryKey"])) pk,
            some m0,
            some (applyUpdate m0 (removeKeys upd ["_rowIndex", "_primaryKey"]))⟩],
          queries := 2 } := by
      rw [show updateEndpoint p tableName pk table (some crit) upd store =
          updateEndpointChecked p tableName pk table crit upd store from rfl]
      unfold updateEndpointChecked
      rw [hft]
      rw [if_neg (by simp [hf, hnu])]
      simp [hne, auditStep]
    have hD : deleteEndpoint p tableName pk table (some crit) store =
        { status := 200, success := true, message := "Registro eliminado exitosamente",
          record := some m0,
          table := table.filter (fun r => !(matchesCriterion crit.field crit.value r)),
          audit := [⟨p.email, p.id, p.name, "DELETE", tableName,
            rowGet m0 pk, some m0, none⟩],
          queries := 2 } := by
      rw [show deleteEndpoint p tableName pk table (some crit) store =
          deleteEndpointChecked p tableName pk table crit store from rfl]
      unfold deleteEndpointChecked
      rw [hft]
      rw [if_neg (by simp [hf, hv])]
      simp [auditStep]
    refine ⟨⟨by rw [hU], by rw [hU], by rw [hU]; rfl, ?_⟩,
      by rw [hD], by rw [hD], by rw [hD]; rfl, ?_⟩
    · intro e he
      rw [hU] at he
      simp only [List.mem_singleton] at he
      subst he
      rw [hU]
      exact ⟨rfl, rfl, rfl, rfl⟩
    · intro e he
      rw [hD] at he
      simp only [List.mem_singleton] at he
      subst he
      rw [hD]
      exact ⟨rfl, rfl, rfl⟩

/-- Witness for C9: a criterion matching two rows — both rows are updated,
yet one audit entry is emitted, carrying the first matching row. -/
theorem update_delete_bulk_semantics_witness :
    (updateEndpoint ⟨"a@rn.gob", .num 1, "Ana"⟩ "socios" "id"
        [[("id", .num 1), ("g", .str "a")], [("id", .num 2), ("g", .str "a")]]
        (some ⟨"g", .str "a"⟩) [("g", .str "b")] (fun _ => .ok ⟨1, "t"⟩)).table =
      [[("id", .num 1), ("g", .str "b")], [("id", .num 2), ("g", .str "b")]] ∧
    (updateEndpoint ⟨"a@rn.gob", .num 1, "Ana"⟩ "socios" "id"
        [[("id", .num 1), ("g", .str "a")], [("id", .num 2), ("g", .str "a")]]
        (some ⟨"g", .str "a"⟩) [("g", .str "b")] (fun _ => .ok ⟨1, "t"⟩)).audit.length = 1 := by
  have h := update_delete_bulk_semantics ⟨"a@rn.gob", .num 1, "Ana"⟩ "socios" "id"
      [[("id", .num 1), ("g", .str "a")], [("id", .num 2), ("g", .str "a")]]
      ⟨"g", .str "a"⟩ [("g", .str "b")] (fun _ => .ok ⟨1, "t"⟩)
      (by decide) (by decide) (by decide) (by decide)
  refine ⟨?_, h.1.2.2.1⟩
  rw [h.1.2.1]
  decide

/-- C10.  Delete rejects, with a validation error and before issuing any
query against the data table, every criterion whose value is falsy; update
rejects only a criterion whose value is strictly `undefined` — so `0`, the
empty string, `false` and `null` are usable match values for update but
rejected for delete. -/
theorem delete_update_falsy_criterion
    (p : Principal) (tableName pk : String) (table : List Row) (upd : Row)
    (store : AuditInsertValues → Except String PersistedAudit)
    (f : String) (v : JsVal) (hf : f ≠ "") :
    ((deleteEndpoint p tableName pk table (some ⟨f, v⟩) store).status = 400 ↔
      JsVal.truthy v = false) ∧
    ((deleteEndpoint p tableName pk table (some ⟨f, v⟩) store).status = 400 →
      (deleteEndpoint p tableName pk table (some ⟨f, v⟩) store).queries = 0) ∧
    ((updateEndpoint p tableName pk table (some ⟨f, v⟩) upd store).status = 400 ↔
      v = JsVal.undefined) ∧
    (JsVal.truthy (JsVal.num 0) = false ∧ JsVal.truthy (JsVal.str "") = false ∧
      JsVal.truthy (JsVal.bool false) = false ∧ JsVal.truthy JsVal.null = false ∧
      JsVal.num 0 ≠ JsVal.undefined ∧ JsVal.str "" ≠ JsVal.undefined ∧
      JsVal.bool false ≠ JsVal.undefined ∧ JsVal.null ≠ JsVal.undefined) := by
  have hDel : deleteEndpoint p tableName pk table (some ⟨f, v⟩) store =
      deleteEndpointChecked p tableName pk table ⟨f, v⟩ store := rfl
  have hUpd : updateEndpoint p tableName pk table (some ⟨f, v⟩) upd store =
      updateEndpointChecked p tableName pk table ⟨f, v⟩ upd store := rfl
  have hDcases : (JsVal.truthy v = false ∧
      deleteEndpointChecked p tableName pk table ⟨f, v⟩ store =
        { status := 400, success := false,
          message := "Se requiere criterio de búsqueda válido para eliminar",
          record := none, table := table, audit := [], queries := 0 }) ∨
      (JsVal.truthy v = true ∧
        (deleteEndpointChecked p tableName pk table ⟨f, v⟩ store).status ≠ 400) := by
    by_cases hT : JsVal.truthy v = true
    · right
      refine ⟨hT, ?_⟩
      unfold deleteEndpointChecked
      rw [if_neg (by simp [hf, hT])]
      split
      · simp
      · simp [auditStep]
    · left
      have hT' : JsVal.truthy v = false := by simpa using hT
      refine ⟨hT', ?_⟩
      unfold deleteEndpointChecked
      rw [if_pos (by simp [hT'])]
  have hUcases : (v = JsVal.undefined ∧
      updateEndpointChecked p tableName pk table ⟨f, v⟩ upd store =
        { status := 400, success := false,
          message := "Se requiere criterio de búsqueda válido",
          record := none, table := table, audit := [], queries := 0 }) ∨
      (v ≠ JsVal.undefined ∧
        (updateEndpointChecked p tableName pk table ⟨f, v⟩ upd store).status ≠ 400) := by
    by_cases hv : v = JsVal.undefined
    · left
      refine ⟨hv, ?_⟩
      unfold updateEndpointChecked
      rw [if_pos (by simp [hv])]
    · right
      refine ⟨hv, ?_⟩
      unfold updateEndpointChecked
      rw [if_neg (by simp [hf, hv])]
      split
      · simp
      · split
        · simp
        · simp [auditStep]
  refine ⟨?_, ?_, ?_, by decide⟩
  · rcases hDcases with ⟨hT, heq⟩ | ⟨hT, hne⟩
    · rw [hDel, heq]
      simp [hT]
    · rw [hDel]
      exact iff_of_false hne (by simp [hT])
  · rcases hDcases with ⟨hT, heq⟩ | ⟨hT, hne⟩
    · rw [hDel, heq]
      intro
      rfl
    · rw [hDel]
      intro h
      exact absurd h hne
  · rcases hUcases with ⟨hv, heq⟩ | ⟨hv, hne⟩
    · rw [hUpd, heq]
      simp [hv]
    · rw [hUpd]
      exact iff_of_false hne hv

/-- Witness for C10: the criterion `("Estado", 0)` is rejected by delete with
status 400 and zero data-table queries, but not rejected by update. -/
theorem delete_update_falsy_criterion_witness :
    (deleteEndpoint ⟨"a@rn.gob", .num 1, "Ana"⟩ "socios" "id" []
        (some ⟨"Estado", .num 0⟩) (fun _ => .ok ⟨1, "t"⟩)).status = 400 ∧
    (deleteEndpoint ⟨"a@rn.gob", .num 1, "Ana"⟩ "socios" "id" []
        (some ⟨"Estado", .num 0⟩) (fun _ => .ok ⟨1, "t"⟩)).queries = 0 ∧
    ¬ (updateEndpoint ⟨"a@rn.gob", .num 1, "Ana"⟩ "socios" "id" []
        (some ⟨"Estado", .num 0⟩) [("n", .str "x")] (fun _ => .ok ⟨1, "t"⟩)).status = 400 := by
  have h := delete_update_falsy_criterion ⟨"a@rn.gob", .num 1, "Ana"⟩ "socios" "id" []
      [("n", .str "x")] (fun _ => .ok ⟨1, "t"⟩) "Estado" (.num 0) (by decide)
  refine ⟨h.1.mpr (by decide), h.2.1 (h.1.mpr (by decide)), fun hc => ?_⟩
  have := h.2.2.1.mp hc
  simp at this

/-- C7 counterexample.  `logAuditAction` applies no field-name folding:
the serialized `old_values` of this persisted entry carries the accented key
`Razón` and its plain form `Razon` as two distinct keys — `asciiFold` maps
one to the other, and they are different strings. -/
theorem audit_diacritic_normalization_counterexample :
    (auditInsertValues ⟨"a@rn.gob", .num 1, "Ana", "UPDATE", "entidades", .num 7,
        some accentRow, none⟩).old_values =
      some "\x7b\"Razón\":\"Social\",\"Razon\":\"Comercial\"\x7d" ∧
    accentRow.map Prod.fst = ["Razón", "Razon"] ∧
    asciiFold "Razón" = "Razon" ∧ "Razón" ≠ "Razon" := by
  refine ⟨rfl, rfl, by decide, by decide⟩

/-- C7 amended.  The Audit Recorder performs no field-name
normalization at all: each snapshot is serialized by `JSON.stringify` with
every key emitted verbatim, so accent-variant spellings of a field persist
as distinct keys. -/
theorem audit_serializes_keys_verbatim (a : ActionData) (r r' : Row)
    (ho : a.oldValues = some r) (hn : a.newValues = some r') :
    (auditInsertValues a).old_values = some (jsonStringify r) ∧
    (auditInsertValues a).new_values = some (jsonStringify r') := by
  simp [auditInsertValues, ho, hn]

/-- Witness for the amended C7 at a concrete entry. -/
theorem audit_serializes_keys_verbatim_witness :
    (auditInsertValues ⟨"a@rn.gob", .num 1, "Ana", "DELETE", "entidades", .num 7,
        some accentRow, some [("Razón", JsVal.str "x")]⟩).old_values =
      some (jsonStringify accentRow) ∧
    (auditInsertValues ⟨"a@rn.gob", .num 1, "Ana", "DELETE", "entidades", .num 7,
        some accentRow, some [("Razón", JsVal.str "x")]⟩).new_values =
      some (jsonStringify [("Razón", JsVal.str "x")]) :=
  audit_serializes_keys_verbatim _ accentRow [("Razón", JsVal.str "x")] rfl rfl

/-- C6 counterexample.  The second request for the same table name
performs catalog introspection again: after two requests the catalog has
been introspected twice, not at most once per process lifetime. -/
theorem schema_not_memoized_counterexample :
    searchTwiceLog.introspections = 2 ∧ ¬ searchTwiceLog.introspections ≤ 1 := by
  refine ⟨rfl, by decide⟩

/-- C6 amended.  There is no schema cache: every search request invokes
`getTableSchema`, performing one more round of catalog introspection,
whatever the prior state of the process. -/
theorem schema_introspected_every_request (log : QueryLog) (columnsRows : List ColumnInfo)
    (pkRows : List String) (searchText searchField : String) :
    (searchEndpoint log true columnsRows pkRows searchText searchField).1.introspections =
      log.introspections + 1 := by
  unfold searchEndpoint
  repeat' split
  all_goals first
    | rfl
    | (rename_i h; exact absurd h (by decide))

/-- C8 counterexample.  A search request naming a field that is not a
column of the table, but with an empty `searchText`, is *not* rejected: the
handler skips the field check, issues the unfiltered data query and answers
success — the claim's validation does not fire for every request with an
unknown `searchField`. -/
theorem search_unknown_field_not_always_rejected :
    (searchEndpoint ⟨0, 0⟩ true [⟨"id", "integer"⟩] ["id"] "" "noSuchColumn").2.success = true ∧
    (searchEndpoint ⟨0, 0⟩ true [⟨"id", "integer"⟩] ["id"] "" "noSuchColumn").1.dataQueries = 1 := by
  refine ⟨rfl, rfl⟩

/-- C8 amended.  For every search request with a *non-empty*
`searchText` and a non-empty `searchField` that is not a column of the
resolved schema, the handler answers 400 with `success: false` and issues no
query against the data table. -/
theorem search_unknown_field_rejected (log : QueryLog) (c0 : ColumnInfo)
    (rest : List ColumnInfo) (pkRows : List String) (searchText searchField : String)
    (htext : searchText ≠ "") (hfield : searchField ≠ "")
    (hnone : (c0 :: rest).find? (fun col => col.column_name == searchField) = none) :
    (searchEndpoint log true (c0 :: rest) pkRows searchText searchField).2.status = 400 ∧
    (searchEndpoint log true (c0 :: rest) pkRows searchText searchField).2.success = false ∧
    (searchEndpoint log true (c0 :: rest) pkRows searchText searchField).1.dataQueries =
      log.dataQueries := by
  unfold searchEndpoint getTableSchemaModel
  simp only [Bool.not_true, Bool.false_eq_true, if_false]
  rw [if_pos (by simp [htext, hfield])]
  rw [hnone]
  exact ⟨rfl, rfl, rfl⟩

/-- Witness for the amended C8 at a concrete schema and request. -/
theorem search_unknown_field_rejected_witness :
    (searchEndpoint ⟨0, 0⟩ true [⟨"id", "integer"⟩] ["id"] "abc" "zzz").2.status = 400 ∧
    (searchEndpoint ⟨0, 0⟩ true [⟨"id", "integer"⟩] ["id"] "abc" "zzz").2.success = false ∧
    (searchEndpoint ⟨0, 0⟩ true [⟨"id", "integer"⟩] ["id"] "abc" "zzz").1.dataQueries = 0 :=
  search_unknown_field_rejected ⟨0, 0⟩ ⟨"id", "integer"⟩ [] ["id"] "abc" "zzz"
    (by decide) (by decide) (by decide)
